import Mathlib

/-!
# Verification of the finnlo_pdf booklet-rescan pipeline

Shallow embedding of `src/finnlo.py` (class `FinnloPdf`): the page-order
remapping formula, the extraction stage `extract_pages`, the crop stage
`crop_details`, and the pipeline `run`, together with theorems about them.
-/

namespace Finnlo

/-! ## Page-order resolver

The repository variant in `src/finnlo.py` extracts pages in physical order
and contains no reordering code; the resolver below is modelled from the
specification's formula (§4.1). -/

/-- Modelled from the spec: `PageOrderResolver` is not present in
`src/finnlo.py` (that variant extracts in physical order); §4.1 gives the
formula for the logical index targeted by physical index `i` out of `N`:
`N - 1 - i / 2` when `i % 4 ∈ {0, 3}`, and `i / 2` when `i % 4 ∈ {1, 2}`. -/
def target (N i : Nat) : Nat :=
  if i % 4 = 0 ∨ i % 4 = 3 then N - 1 - i / 2 else i / 2

/-- Explicit inverse of `target` on `[0, N)` for even `N`, used to prove
bijectivity. -/
def invTarget (N L : Nat) : Nat :=
  if L < N / 2 then
    if L % 2 = 0 then 2 * L + 1 else 2 * L
  else
    if (N - 1 - L) % 2 = 0 then 2 * (N - 1 - L) else 2 * (N - 1 - L) + 1

/-- Modelled from the spec: `resolve(N)` builds the logical mapping, slot
`L` holding the physical index assigned to logical position `L` (`none` if
unassigned); each physical index `i` is written into slot `target N i`. -/
def resolve (N : Nat) : List (Option Nat) :=
  (List.range N).foldl (fun m i => m.set (target N i) (some i))
    (List.replicate N (none : Option Nat))

theorem target_lt {N i : Nat} (hN : N % 2 = 0) (h2 : 2 ≤ N) (hi : i < N) :
    target N i < N := by
  unfold target
  split <;> omega

theorem invTarget_lt {N L : Nat} (hN : N % 2 = 0) (h2 : 2 ≤ N) (hL : L < N) :
    invTarget N L < N := by
  unfold invTarget
  split <;> split <;> omega

theorem invTarget_target {N i : Nat} (hN : N % 2 = 0) (hi : i < N) :
    invTarget N (target N i) = i := by
  unfold target invTarget
  split_ifs <;> omega

theorem target_invTarget {N L : Nat} (hN : N % 2 = 0) (hL : L < N) :
    target N (invTarget N L) = L := by
  unfold target invTarget
  split_ifs <;> omega

/-- C1: for every even page count `N ≥ 2` the resolver's formula is a
bijection between physical indices and logical slots: it maps `[0, N)` into
`[0, N)`, injectively and surjectively; and for `N = 8` the produced
logical-to-physical mapping is `[1, 2, 5, 6, 7, 4, 3, 0]`. -/
theorem resolve_bijection (N : Nat) (hN : N % 2 = 0) (h2 : 2 ≤ N) :
    (∀ i < N, target N i < N) ∧
    (∀ i < N, ∀ j < N, target N i = target N j → i = j) ∧
    (∀ L < N, ∃ i < N, target N i = L) ∧
    resolve 8 = [some 1, some 2, some 5, some 6, some 7, some 4, some 3, some 0] := by
  refine ⟨fun i hi => target_lt hN h2 hi, ?_, ?_, by decide⟩
  · intro i hi j hj hij
    have h1 := invTarget_target hN hi
    have h2 := invTarget_target hN hj
    rw [hij] at h1
    omega
  · intro L hL
    exact ⟨invTarget N L, invTarget_lt hN h2 hL, target_invTarget hN hL⟩

theorem resolve_bijection_witness :
    8 % 2 = 0 ∧ 2 ≤ 8 ∧
      ((∀ i < 8, target 8 i < 8) ∧
       (∀ i < 8, ∀ j < 8, target 8 i = target 8 j → i = j) ∧
       (∀ L < 8, ∃ i < 8, target 8 i = L) ∧
       resolve 8 = [some 1, some 2, some 5, some 6, some 7, some 4, some 3, some 0]) :=
  ⟨by decide, by decide, resolve_bijection 8 (by decide) (by decide)⟩

/-! ## Extraction stage

`FinnloPdf.extract_pages` (src/finnlo.py lines 106-152). The environment
captures everything the function observes: whether the first expected raw
page file exists, whether the source PDF exists and opens, the page count,
and the per-page behaviour of `enumerate(doc)` / `get_pixmap` / `save`.
The result records the returned value (or a propagated exception), the
0-based physical indices whose raster file was saved, and a trace of
document-handle and render events. -/

/-- Python-level outcome of a call: a returned boolean, or an uncaught
exception propagating out. -/
inductive Outcome where
  | ok (b : Bool)
  | raised
deriving DecidableEq

/-- Observable events of `extract_pages`: the `fitz.open` / `doc.close`
handle lifecycle and the per-page loop body. -/
inductive Event where
  | opened
  | closed
  | rendered (i : Nat)
  | skippedNone (i : Nat)
  | renderFailed (i : Nat)
deriving DecidableEq

structure Env where
  /-- `os.path.exists(self.get_page_raw(0))` — first expected output file. -/
  firstRawExists : Bool
  /-- `os.path.exists(self.pdf_source)`. -/
  sourceExists : Bool
  /-- whether `fitz.open(self.pdf_source)` succeeds. -/
  openOk : Bool
  /-- whether `os.makedirs(self.raw_directory, exist_ok=True)` succeeds. -/
  mkdirOk : Bool
  /-- `doc.page_count`. -/
  pageCount : Nat
  /-- whether the page yielded by `enumerate(doc)` at index `i` is `None`. -/
  pageIsNone : Nat → Bool
  /-- whether `page.get_pixmap(...)` + `pix.save(...)` succeed for index `i`. -/
  renderOk : Nat → Bool

structure ExtractResult where
  outcome : Outcome
  /-- 0-based indices whose raster file was written by this call. -/
  rendered : List Nat
  trace : List Event
deriving DecidableEq

/-- The `for i, page in enumerate(doc)` loop inside the single
`try/except/finally` of `extract_pages`: a `None` page is skipped with a
warning and the loop continues; a raising render aborts the whole loop
(the `try` wraps the loop, not its body). Returns the saved indices, the
loop events, and whether an exception escaped the loop into the `except`
handler. -/
def renderLoop (env : Env) : List Nat → List Nat × List Event × Bool
  | [] => ([], [], false)
  | i :: rest =>
    if env.pageIsNone i then
      let (r, t, e) := renderLoop env rest
      (r, Event.skippedNone i :: t, e)
    else if env.renderOk i then
      let (r, t, e) := renderLoop env rest
      (i :: r, Event.rendered i :: t, e)
    else
      ([], [Event.renderFailed i], true)

/-- `FinnloPdf.extract_pages`. Control flow, in source order:
if the first raw page file exists, return `True`;
if the source PDF is missing, return `False`;
if `fitz.open` fails, return `False`;
if `page_count == 0`, close the document and return `True`;
`os.makedirs` (a failure here propagates as an exception, with the document
left open); then the render loop inside `try/except/finally` — the
`finally` block both closes the document and does `return True`, which
supersedes the `except` handler's `return False`, so every path through
the loop returns `True`. -/
def extract_pages (env : Env) : ExtractResult :=
  if env.firstRawExists then ⟨.ok true, [], []⟩
  else if !env.sourceExists then ⟨.ok false, [], []⟩
  else if !env.openOk then ⟨.ok false, [], []⟩
  else if env.pageCount = 0 then ⟨.ok true, [], [.opened, .closed]⟩
  else if !env.mkdirOk then ⟨.raised, [], [.opened]⟩
  else
    let (r, t, _) := renderLoop env (List.range env.pageCount)
    ⟨.ok true, r, .opened :: (t ++ [.closed])⟩

/-- Filesystem after one `extract_pages` call: the first raw page file
exists afterwards iff it existed before or physical index 0 was saved. -/
def envAfter (env : Env) : Env :=
  { env with
      firstRawExists := env.firstRawExists || decide (0 ∈ (extract_pages env).rendered) }

/-! ## Crop stage

`FinnloPdf.crop_details` (src/finnlo.py lines 41-104). Ratios are modelled
as exact rationals; Python's `int(...)` truncation of the non-negative
products `height * ratio` is `pyTrunc`. An image is a list of pixel rows;
`image[y_start:y_end, :]` is drop-then-take on the rows. -/

/-- Python `int(q)` for a non-negative rational `q`: truncation toward
zero, i.e. the floor. (Both products truncated in `crop_details` are of
non-negative factors.) -/
def pyTrunc (q : ℚ) : Nat := q.num.toNat / q.den

/-- `strip_height_px = int(height * self.crop_strip_height_ratio)`. -/
def strip_height_px (height : Nat) (ratio : ℚ) : Nat :=
  pyTrunc ((height : ℚ) * ratio)

/-- The `(y_start, y_end)` pixel-row bounds computed for one break ratio:
`y_start = int(height * y_start_ratio)`,
`y_end = min(y_start + strip_height_px, height)`. -/
def stripBound (height : Nat) (shr : ℚ) (r : ℚ) : Nat × Nat :=
  (pyTrunc ((height : ℚ) * r),
   min (pyTrunc ((height : ℚ) * r) + strip_height_px height shr) height)

/-- The bounds of all strips of one page, one per break ratio, in break-list
order (the `enumerate(y_start_ratios)` loop). -/
def stripBounds (height : Nat) (shr : ℚ) (breaks : List ℚ) : List (Nat × Nat) :=
  breaks.map (stripBound height shr)

/-- `image[y_start:y_end, :]` — the horizontal band of rows
`[y_start, y_end)`, each row kept whole (full width). -/
def cropStrip (image : List (List α)) (b : Nat × Nat) : List (List α) :=
  (image.drop b.1).take (b.2 - b.1)

/-- The strips cropped from one loaded page image by one rule's break list:
the body of the `for sub_index, y_start_ratio in enumerate(...)` loop. -/
def crop_page (image : List (List α)) (shr : ℚ) (breaks : List ℚ) :
    List (List (List α)) :=
  (stripBounds image.length shr breaks).map (cropStrip image)

/-- A crop rule from `self.crop_definitions`: the 1-based page numbers of
its `range`, in order, and its break ratios. -/
structure CropRule where
  pages : List Nat
  breaks : List ℚ

structure CropEnv where
  /-- whether `os.makedirs(self.crop_directory, exist_ok=True)` succeeds. -/
  mkdirOk : Bool
  /-- `self.crop_strip_height_ratio`. -/
  stripHeightRatio : ℚ
  /-- `self.crop_definitions`. -/
  rules : List CropRule
  /-- `os.path.exists(self.get_page_raw(i))` for 0-based index `i`. -/
  rasterExists : Nat → Bool
  /-- result of `cv2.imread`: `none` if it returns `None`, else the image
  height. -/
  imreadHeight : Nat → Option Nat
  /-- whether an exception is raised inside the per-page `try` block
  (after a successful load) for 0-based index `i`. -/
  cropRaises : Nat → Bool

/-- What happened to one page of one rule. -/
inductive PageOutcome where
  /-- raster file absent: `logging.warning` + `continue`. -/
  | missing
  /-- `cv2.imread` returned `None`: `logging.error` + `continue`. -/
  | loadFailed
  /-- exception inside the `try`: `logging.error`, loop continues. -/
  | excepted
  /-- strips written, with their row bounds. -/
  | cropped (strips : List (Nat × Nat))
deriving DecidableEq

structure CropResult where
  outcome : Outcome
  /-- every (1-based page, outcome) pair processed, across all rules in
  order. -/
  processed : List (Nat × PageOutcome)

/-- `FinnloPdf.crop_details`: `os.makedirs` (a failure propagates), then
for each rule, for each page number of its range, the per-page body; the
function always returns `True`. -/
def crop_details (cenv : CropEnv) : CropResult :=
  if !cenv.mkdirOk then ⟨.raised, []⟩
  else
    ⟨.ok true,
      (cenv.rules.map (fun rule =>
        rule.pages.map (fun p =>
          (p,
            let i := p - 1
            if !cenv.rasterExists i then PageOutcome.missing
            else
              match cenv.imreadHeight i with
              | none => PageOutcome.loadFailed
              | some h =>
                if cenv.cropRaises i then PageOutcome.excepted
                else PageOutcome.cropped
                  (stripBounds h cenv.stripHeightRatio rule.breaks))))).flatten⟩

/-! ## Pipeline -/

/-- `FinnloPdf.run`: `if not self.extract_pages(): return False`;
`if not self.crop_details(): return False`; `return True`. An exception in
a stage propagates. Returns the run's outcome and whether `crop_details`
was invoked. -/
def run (env : Env) (cenv : CropEnv) : Outcome × Bool :=
  match (extract_pages env).outcome with
  | .raised => (.raised, false)
  | .ok false => (.ok false, false)
  | .ok true =>
    match (crop_details cenv).outcome with
    | .raised => (.raised, true)
    | .ok b => (.ok b, true)

/-! ## Concrete environments used in counterexamples and witnesses -/

/-- Fresh run, 3-page document, rendering page index 1 raises. -/
def env3 : Env :=
  { firstRawExists := false, sourceExists := true, openOk := true,
    mkdirOk := true, pageCount := 3,
    pageIsNone := fun _ => false, renderOk := fun i => !(i == 1) }

/-- Fresh run, 2-page document, page index 0 is `None`, page 1 renders. -/
def env4 : Env :=
  { firstRawExists := false, sourceExists := true, openOk := true,
    mkdirOk := true, pageCount := 2,
    pageIsNone := fun i => i == 0, renderOk := fun _ => true }

/-- First raw page file present, source PDF missing. -/
def env6 : Env :=
  { firstRawExists := true, sourceExists := false, openOk := true,
    mkdirOk := true, pageCount := 0,
    pageIsNone := fun _ => false, renderOk := fun _ => true }

/-- Fresh run, source PDF missing. -/
def env7 : Env :=
  { firstRawExists := false, sourceExists := false, openOk := true,
    mkdirOk := true, pageCount := 2,
    pageIsNone := fun _ => false, renderOk := fun _ => true }

/-- Fresh run, 2-page document, every page renders. -/
def env9 : Env :=
  { firstRawExists := false, sourceExists := true, openOk := true,
    mkdirOk := true, pageCount := 2,
    pageIsNone := fun _ => false, renderOk := fun _ => true }

/-- Fresh run, 1-page document, every page renders. -/
def env1 : Env :=
  { firstRawExists := false, sourceExists := true, openOk := true,
    mkdirOk := true, pageCount := 1,
    pageIsNone := fun _ => false, renderOk := fun _ => true }

/-- Fresh run, empty (0-page) document. -/
def env0 : Env :=
  { firstRawExists := false, sourceExists := true, openOk := true,
    mkdirOk := true, pageCount := 0,
    pageIsNone := fun _ => false, renderOk := fun _ => true }

/-- Crop environment with no rules. -/
def cenv0 : CropEnv :=
  { mkdirOk := true, stripHeightRatio := 3 / 10, rules := [],
    rasterExists := fun _ => false, imreadHeight := fun _ => none,
    cropRaises := fun _ => false }

/-- Crop environment exercising every per-page outcome on one rule over
pages 1-4: page 1's raster is missing, page 2 fails to load, page 3 raises
while cropping, page 4 is cropped. -/
def cenvW : CropEnv :=
  { mkdirOk := true, stripHeightRatio := 3 / 10,
    rules := [{ pages := [1, 2, 3, 4], breaks := [7 / 100] }],
    rasterExists := fun i => !(i == 0),
    imreadHeight := fun i => if i == 1 then none else some 100,
    cropRaises := fun i => i == 2 }

/-! ## Extraction-stage theorems -/

/-- C3: the claim says a failing render is skipped and subsequent pages are
still rendered. In the code the `try` wraps the whole loop, so the first
raising render aborts all later pages; the `finally` block's `return True`
then supersedes the `except` handler's `return False`. At `env3` (3 pages,
rendering index 1 raises) only page 0 is rendered, page 2 never is, yet the
stage reports success. -/
theorem render_failure_aborts :
    (extract_pages env3).rendered = [0] ∧
    (extract_pages env3).outcome = Outcome.ok true ∧
    (extract_pages env3).trace =
      [Event.opened, Event.rendered 0, Event.renderFailed 1, Event.closed] := by
  decide

/-- C10: the resumability shortcut is checked before the source-existence
check, so when the first expected output file exists the stage returns
success even though the source PDF path does not exist. -/
theorem shortcut_precedes_source_check (env : Env)
    (h0 : env.firstRawExists = true) (h1 : env.sourceExists = false) :
    (extract_pages env).outcome = Outcome.ok true ∧
    (extract_pages env).rendered = [] := by
  constructor <;> simp [extract_pages, h0]

theorem shortcut_precedes_source_check_witness :
    env6.firstRawExists = true ∧ env6.sourceExists = false ∧
      ((extract_pages env6).outcome = Outcome.ok true ∧
       (extract_pages env6).rendered = []) :=
  ⟨by decide, by decide, shortcut_precedes_source_check env6 (by decide) (by decide)⟩

/-- C6 counterexample: the claim says a missing source document always
makes the stage abort with failure and the run fail; at `env6` the source
is missing but the first raw page file exists, so the stage — and the whole
run — report success. -/
theorem source_missing_not_fatal :
    env6.sourceExists = false ∧
    (extract_pages env6).outcome = Outcome.ok true ∧
    (run env6 cenv0).1 = Outcome.ok true := by
  decide

/-- C6 (amended): if the source document path does not exist and the first
expected output file does not exist either, the extraction stage returns
failure and the run reports failure without invoking the crop stage. -/
theorem source_missing_fatal (env : Env) (cenv : CropEnv)
    (h0 : env.firstRawExists = false) (h1 : env.sourceExists = false) :
    (extract_pages env).outcome = Outcome.ok false ∧
    run env cenv = (Outcome.ok false, false) := by
  have he : (extract_pages env).outcome = Outcome.ok false := by
    simp [extract_pages, h0, h1]
  exact ⟨he, by simp [run, he]⟩

theorem source_missing_fatal_witness :
    env7.firstRawExists = false ∧ env7.sourceExists = false ∧
      ((extract_pages env7).outcome = Outcome.ok false ∧
       run env7 cenv0 = (Outcome.ok false, false)) :=
  ⟨by decide, by decide, source_missing_fatal env7 cenv0 (by decide) (by decide)⟩

/-- C7: a source document with zero pages is not an error: the stage
returns success, renders nothing and writes no output files. -/
theorem empty_document_success (env : Env)
    (h0 : env.firstRawExists = false) (h1 : env.sourceExists = true)
    (h2 : env.openOk = true) (h3 : env.pageCount = 0) :
    (extract_pages env).outcome = Outcome.ok true ∧
    (extract_pages env).rendered = [] ∧
    ∀ i, Event.rendered i ∉ (extract_pages env).trace := by
  refine ⟨?_, ?_, ?_⟩ <;> simp [extract_pages, h0, h1, h2, h3]

theorem empty_document_success_witness :
    env0.firstRawExists = false ∧ env0.sourceExists = true ∧
      env0.openOk = true ∧ env0.pageCount = 0 ∧
      ((extract_pages env0).outcome = Outcome.ok true ∧
       (extract_pages env0).rendered = [] ∧
       ∀ i, Event.rendered i ∉ (extract_pages env0).trace) :=
  ⟨by decide, by decide, by decide, by decide,
    empty_document_success env0 (by decide) (by decide) (by decide) (by decide)⟩

/-- C4 counterexample: the claim says a second invocation of the stage
renders nothing. At `env4` (page index 0 is `None`, page 1 renders) the
first call succeeds but never writes page 1's raster, so the second call
misses the shortcut and renders page index 1 again. -/
theorem second_call_renders :
    (extract_pages env4).outcome = Outcome.ok true ∧
    (extract_pages (envAfter env4)).rendered = [1] ∧
    (extract_pages (envAfter env4)).rendered ≠ [] := by
  decide

/-- C4 (amended): whenever the first expected output file exists the stage
does no work and returns success; and if the first call rendered physical
index 0 (so that file now exists), the second call renders nothing and
still reports success. -/
theorem extract_resume_shortcut (env : Env) :
    (env.firstRawExists = true →
      (extract_pages env).outcome = Outcome.ok true ∧
      (extract_pages env).rendered = [] ∧
      (extract_pages env).trace = []) ∧
    (0 ∈ (extract_pages env).rendered →
      (extract_pages (envAfter env)).outcome = Outcome.ok true ∧
      (extract_pages (envAfter env)).rendered = [] ∧
      (extract_pages (envAfter env)).trace = []) := by
  constructor
  · intro h
    refine ⟨?_, ?_, ?_⟩ <;> simp [extract_pages, h]
  · intro h
    have hf : (envAfter env).firstRawExists = true := by
      simp [envAfter, h]
    refine ⟨?_, ?_, ?_⟩ <;> simp [extract_pages, hf]

theorem extract_resume_shortcut_witness :
    (env6.firstRawExists = true ∧
      ((extract_pages env6).outcome = Outcome.ok true ∧
       (extract_pages env6).rendered = [] ∧
       (extract_pages env6).trace = [])) ∧
    (0 ∈ (extract_pages env1).rendered ∧
      ((extract_pages (envAfter env1)).outcome = Outcome.ok true ∧
       (extract_pages (envAfter env1)).rendered = [] ∧
       (extract_pages (envAfter env1)).trace = [])) :=
  ⟨⟨by decide, (extract_resume_shortcut env6).1 (by decide)⟩,
   ⟨by decide, (extract_resume_shortcut env1).2 (by decide)⟩⟩

/-! ## Pipeline theorems -/

/-- C5: `run` aborts with failure, without invoking the crop stage, when
extraction returns failure; when extraction returns success it invokes the
crop stage and returns that stage's own result. -/
theorem run_sequences_stages (env : Env) (cenv : CropEnv) :
    ((extract_pages env).outcome = Outcome.ok false →
      run env cenv = (Outcome.ok false, false)) ∧
    ((extract_pages env).outcome = Outcome.ok true →
      run env cenv = ((crop_details cenv).outcome, true)) := by
  constructor
  · intro h
    simp [run, h]
  · intro h
    unfold run
    rw [h]
    cases hc : (crop_details cenv).outcome <;> simp

theorem run_sequences_stages_witness :
    ((extract_pages env7).outcome = Outcome.ok false ∧
      run env7 cenv0 = (Outcome.ok false, false)) ∧
    ((extract_pages env1).outcome = Outcome.ok true ∧
      run env1 cenv0 = ((crop_details cenv0).outcome, true)) :=
  ⟨⟨by decide, (run_sequences_stages env7 cenv0).1 (by decide)⟩,
   ⟨by decide, (run_sequences_stages env1 cenv0).2 (by decide)⟩⟩

/-! ## Document-handle scoping -/

/-- The claim's per-render handle scoping, as a property of a trace:
between any two render events the handle was released (a `closed` event
occurs). -/
def scopedPerRender (t : List Event) : Prop :=
  ∀ (l₁ l₂ l₃ : List Event) (i j : Nat),
    t = l₁ ++ Event.rendered i :: (l₂ ++ Event.rendered j :: l₃) →
    Event.closed ∈ l₂

/-- C9 counterexample: at `env9` both pages are rendered through the one
handle opened before the loop — the trace has two render events with no
close between them, so the per-render scoping claim is false. -/
theorem handle_not_scoped :
    ¬ scopedPerRender (extract_pages env9).trace := by
  intro h
  have hmem := h [Event.opened] [] [Event.closed] 0 1 (by decide)
  simp at hmem

/-- The render loop itself never opens or closes the document handle. -/
theorem renderLoop_handle_free (env : Env) (l : List Nat) :
    Event.opened ∉ (renderLoop env l).2.1 ∧
    Event.closed ∉ (renderLoop env l).2.1 := by
  induction l with
  | nil => simp [renderLoop]
  | cons i rest ih =>
    rcases hrl : renderLoop env rest with ⟨r, t, e⟩
    rw [hrl] at ih
    by_cases hn : env.pageIsNone i
    · simpa [renderLoop, hn, hrl] using ih
    · by_cases hk : env.renderOk i
      · simpa [renderLoop, hn, hk, hrl] using ih
      · simp [renderLoop, hn, hk]

/-- C9 (amended): once the stage reaches the render loop it uses a single
document handle for the whole loop: the trace is one `opened`, then the
per-page events — none of which opens or closes a handle — and one final
`closed`, emitted by the `finally` block on every exit path (normal
completion or a render failure). -/
theorem single_handle_whole_loop (env : Env)
    (h0 : env.firstRawExists = false) (h1 : env.sourceExists = true)
    (h2 : env.openOk = true) (h3 : env.pageCount ≠ 0) (h4 : env.mkdirOk = true) :
    ∃ body,
      (extract_pages env).trace = Event.opened :: (body ++ [Event.closed]) ∧
      Event.opened ∉ body ∧ Event.closed ∉ body := by
  refine ⟨(renderLoop env (List.range env.pageCount)).2.1, ?_,
    (renderLoop_handle_free env _).1, (renderLoop_handle_free env _).2⟩
  rcases hrl : renderLoop env (List.range env.pageCount) with ⟨r, t, e⟩
  simp [extract_pages, h0, h1, h2, h3, h4, hrl]

theorem single_handle_whole_loop_witness :
    env9.firstRawExists = false ∧ env9.sourceExists = true ∧
      env9.openOk = true ∧ env9.pageCount ≠ 0 ∧ env9.mkdirOk = true ∧
      ∃ body,
        (extract_pages env9).trace = Event.opened :: (body ++ [Event.closed]) ∧
        Event.opened ∉ body ∧ Event.closed ∉ body :=
  ⟨by decide, by decide, by decide, by decide, by decide,
    single_handle_whole_loop env9 (by decide) (by decide) (by decide)
      (by decide) (by decide)⟩

/-! ## Crop-stage theorems -/

/-- Retaining only the first component of tagged pairs recovers the
original list. -/
theorem map_fst_pair (l : List α) (g : α → β) :
    l.map (Prod.fst ∘ fun p => (p, g p)) = l := by
  induction l with
  | nil => rfl
  | cons a t ih => simp only [List.map_cons, Function.comp_apply, ih]

/-- C8: for any crop environment in which the output directory can be
created, the crop stage returns success, and every page of every rule is
processed in order — a missing raster, a failed load or an exception on
one page never stops the enumeration. -/
theorem crop_stage_resilient (cenv : CropEnv) (h : cenv.mkdirOk = true) :
    (crop_details cenv).outcome = Outcome.ok true ∧
    (crop_details cenv).processed.map Prod.fst =
      (cenv.rules.map CropRule.pages).flatten := by
  constructor
  · simp [crop_details, h]
  · simp only [crop_details, h, Bool.not_true, Bool.false_eq_true, if_false,
      List.map_flatten, List.map_map]
    refine congrArg List.flatten (List.map_congr_left fun rule _ => ?_)
    simp only [Function.comp_apply, List.map_map]
    exact map_fst_pair rule.pages _

theorem crop_stage_resilient_witness :
    cenvW.mkdirOk = true ∧
      ((crop_details cenvW).outcome = Outcome.ok true ∧
       (crop_details cenvW).processed.map Prod.fst =
         (cenvW.rules.map CropRule.pages).flatten) :=
  ⟨by decide, crop_stage_resilient cenvW (by decide)⟩

/-- Python `int(...)` truncation agrees with the floor on non-negative
rationals. -/
theorem pyTrunc_eq_natFloor (q : ℚ) (hq : 0 ≤ q) : pyTrunc q = Nat.floor q := by
  have hnum : 0 ≤ q.num := Rat.num_nonneg.mpr hq
  have h1 : ((q.num.toNat : ℚ)) = ((q.num : ℚ)) := by
    exact_mod_cast Int.toNat_of_nonneg hnum
  have h2 : ((q.num.toNat : ℚ)) / ((q.den : ℚ)) = q := by
    rw [h1]
    exact Rat.num_div_den q
  rw [pyTrunc, ← Rat.natFloor_natCast_div_natCast q.num.toNat q.den, h2]

/-- The concrete crop geometry of the spec: height 1000, strip-height
ratio `3/10`, break ratios `7/100`, `36/100`, `65/100`. -/
theorem stripBounds_concrete :
    stripBounds 1000 (3 / 10) [7 / 100, 36 / 100, 65 / 100] =
      [(70, 370), (360, 660), (650, 950)] := by
  have e1 : pyTrunc (((1000 : ℕ) : ℚ) * (7 / 100)) = 70 := by
    rw [pyTrunc_eq_natFloor _ (by norm_num), Nat.floor_eq_iff (by norm_num)]
    norm_num
  have e2 : pyTrunc (((1000 : ℕ) : ℚ) * (36 / 100)) = 360 := by
    rw [pyTrunc_eq_natFloor _ (by norm_num), Nat.floor_eq_iff (by norm_num)]
    norm_num
  have e3 : pyTrunc (((1000 : ℕ) : ℚ) * (65 / 100)) = 650 := by
    rw [pyTrunc_eq_natFloor _ (by norm_num), Nat.floor_eq_iff (by norm_num)]
    norm_num
  have esh : strip_height_px 1000 (3 / 10) = 300 := by
    rw [strip_height_px, pyTrunc_eq_natFloor _ (by norm_num),
      Nat.floor_eq_iff (by norm_num)]
    norm_num
  simp only [stripBounds, List.map_cons, List.map_nil, stripBound, e1, e2, e3, esh]
  norm_num

/-- C2: the cropper produces one strip per break ratio, in break-list
order; the strip for ratio `r` on an image of height `h` spans exactly the
pixel rows `[⌊h * r⌋, min (⌊h * r⌋ + ⌊h * stripHeightRatio⌋) h)`, each row
taken whole (full image width); and at height 1000 with ratio `3/10` and
breaks `[7/100, 36/100, 65/100]` the bounds are `[70,370)`, `[360,660)`,
`[650,950)`. -/
theorem crop_page_spec (image : List (List Nat)) (shr : ℚ) (breaks : List ℚ)
    (hshr : 0 ≤ shr) (hbr : ∀ r ∈ breaks, 0 ≤ r) :
    (crop_page image shr breaks).length = breaks.length ∧
    (∀ (k : Nat) (r : ℚ), breaks[k]? = some r →
      ∃ strip : List (List Nat),
        (crop_page image shr breaks)[k]? = some strip ∧
        strip.length =
          min (Nat.floor ((image.length : ℚ) * r) +
              Nat.floor ((image.length : ℚ) * shr)) image.length -
            Nat.floor ((image.length : ℚ) * r) ∧
        ∀ j < strip.length,
          strip[j]? = image[Nat.floor ((image.length : ℚ) * r) + j]?) ∧
    stripBounds 1000 (3 / 10) [7 / 100, 36 / 100, 65 / 100] =
      [(70, 370), (360, 660), (650, 950)] := by
  refine ⟨by simp [crop_page, stripBounds], ?_, stripBounds_concrete⟩
  intro k r hk
  obtain ⟨hklt, hget⟩ := List.getElem?_eq_some_iff.mp hk
  have hrmem : r ∈ breaks := hget ▸ List.getElem_mem hklt
  have hfr : pyTrunc ((image.length : ℚ) * r) = Nat.floor ((image.length : ℚ) * r) :=
    pyTrunc_eq_natFloor _ (mul_nonneg (by positivity) (hbr r hrmem))
  have hfs : strip_height_px image.length shr = Nat.floor ((image.length : ℚ) * shr) :=
    pyTrunc_eq_natFloor _ (mul_nonneg (by positivity) hshr)
  refine ⟨cropStrip image (stripBound image.length shr r), ?_, ?_, ?_⟩
  · simp [crop_page, stripBounds, hk]
  · simp only [cropStrip, stripBound, List.length_take, List.length_drop]
    rw [← hfr, ← hfs]
    omega
  · intro j hj
    simp only [cropStrip, stripBound, List.length_take, List.length_drop] at hj
    simp only [cropStrip, stripBound]
    rw [List.getElem?_take_of_lt (by omega), List.getElem?_drop, hfr]

theorem crop_page_spec_witness :
    (0 ≤ (1 / 2 : ℚ)) ∧ (∀ r ∈ [(0 : ℚ), 1 / 2], 0 ≤ r) ∧
      ((crop_page [[10], [11], [12], [13]] (1 / 2) [0, 1 / 2]).length =
          ([(0 : ℚ), 1 / 2]).length ∧
       (∀ (k : Nat) (r : ℚ), ([(0 : ℚ), 1 / 2])[k]? = some r →
         ∃ strip : List (List Nat),
           (crop_page [[10], [11], [12], [13]] (1 / 2) [0, 1 / 2])[k]? = some strip ∧
           strip.length =
             min (Nat.floor ((([[10], [11], [12], [13]] : List (List Nat)).length : ℚ) * r) +
                 Nat.floor ((([[10], [11], [12], [13]] : List (List Nat)).length : ℚ) * (1 / 2)))
               ([[10], [11], [12], [13]] : List (List Nat)).length -
               Nat.floor ((([[10], [11], [12], [13]] : List (List Nat)).length : ℚ) * r) ∧
           ∀ j < strip.length,
             strip[j]? =
               ([[10], [11], [12], [13]] : List (List Nat))[
                 Nat.floor ((([[10], [11], [12], [13]] : List (List Nat)).length : ℚ) * r) + j]?) ∧
       stripBounds 1000 (3 / 10) [7 / 100, 36 / 100, 65 / 100] =
         [(70, 370), (360, 660), (650, 950)]) :=
  ⟨by norm_num,
   by
    intro r hr
    simp only [List.mem_cons, List.not_mem_nil, or_false] at hr
    rcases hr with rfl | rfl <;> norm_num,
   crop_page_spec [[10], [11], [12], [13]] (1 / 2) [0, 1 / 2] (by norm_num)
     (by
      intro r hr
      simp only [List.mem_cons, List.not_mem_nil, or_false] at hr
      rcases hr with rfl | rfl <;> norm_num)⟩

end Finnlo
